import Mathlib

/-!
Shallow embedding of the imagesProccess repository, covering:

* the FastAPI AI microservice (`app.py` in the sources): module globals,
  the `lifespan` startup hook, the `/remove-background`, `/health`,
  `/batch-remove-background`, `/switch-model` endpoints and the `stats`
  dictionary they update;
* the Clean-Architecture Node backend: `FileSystemImageRepository`
  (save / findById / delete), `UploadImageUseCase.execute`;
* a spec-modelled four-mode dispatch layer for the AI-service endpoints
  that are referenced by their backend callers but whose server code is
  not part of the sources.

External library calls (PIL, rembg, the file system, the clock) are
represented symbolically: images are syntax trees of the library
operations applied to them, wall-clock durations and library outcomes
are explicit parameters of the embedded functions.
-/

namespace AIService

/-- A rembg inference session; `new_session(name)` is `Session.mk name`.
The model name it was created for is the only observable the embedding
needs. -/
structure Session where
  model : String
deriving Repr, DecidableEq

/-- Symbolic PIL image values: each constructor records one library
operation of `app.py` applied to its arguments. -/
inductive Img where
  /-- `Image.open(io.BytesIO(image_data))`, together with the mode PIL
  reports for the decoded image. -/
  | decoded (data : List Nat) (mode : String)
  /-- `pil_image.convert(mode)`. -/
  | converted (i : Img) (mode : String)
  /-- `remove(i, session=s)`; `s = none` models `session=None`. -/
  | removed (i : Img) (s : Option Session)
  /-- `Image.new(mode, (w, h), color=colorName)` with a literal size. -/
  | newConst (mode : String) (w h : Nat) (colorName : String)
  /-- `Image.new("RGBA", like.size, (r, g, b, a))`. -/
  | newLike (mode : String) (like : Img) (r g b a : Nat)
  /-- `Image.alpha_composite(bg, fg)`. -/
  | composited (bg fg : Img)
deriving Repr, DecidableEq

/-- An uploaded file as the endpoint sees it.  `decodable` and
`decodedMode` record the outcome of the external PIL decoder on the
bytes of the file, which the embedding takes as an input. -/
structure UploadFileModel where
  filename : String
  content_type : String
  data : List Nat
  decodable : Bool
  decodedMode : String
deriving Repr, DecidableEq

/-- The module-level `stats` dictionary of `app.py`.  Processing times
are rationals standing for the float seconds of `time.time()`. -/
structure Stats where
  totalProcessed : Nat
  totalErrors : Nat
  totalProcessingTime : ℚ
  averageProcessingTime : ℚ
deriving Repr, DecidableEq

/-- `stats` as initialized at module load. -/
def initStats : Stats :=
  { totalProcessed := 0, totalErrors := 0
    totalProcessingTime := 0, averageProcessingTime := 0 }

/-- The module globals of `app.py`.  `rembg_session` is the global set
to `None` at module load and assigned by `lifespan` and `switch_model`.
`rembg_sessions` models the *binding state* of the name `rembg_sessions`
read by `remove_background`: `none` means the name is unbound (the
module never assigns it, so reading it raises `NameError`), `some d`
means it is bound to the dictionary `d`. -/
structure Globals where
  rembg_session : Option Session
  rembg_sessions : Option (List (String × Session))
deriving Repr, DecidableEq

/-- Module state right after `import`: `rembg_session = None` and the
name `rembg_sessions` unbound. -/
def initGlobals : Globals :=
  { rembg_session := none, rembg_sessions := none }

/-- A raised `fastapi.HTTPException`. -/
structure HTTPExc where
  status_code : Nat
  detail : String
deriving Repr, DecidableEq

/-- A Python exception inside a handler body: either an
`HTTPException` or any other exception (carrying its message). -/
inductive PyExc where
  | http (e : HTTPExc)
  | err (msg : String)
deriving Repr, DecidableEq

/-- Renders an exception the way `str(e)` does in the handlers. -/
def PyExc.message : PyExc → String
  | .http e => toString e.status_code ++ ": " ++ e.detail
  | .err m => m

/-- Nominal byte size of a symbolically encoded image (stands for
`len(output_buffer.getvalue())`). -/
def Img.encSize : Img → Nat
  | .decoded data _ => data.length
  | .converted i _ => i.encSize
  | .removed i _ => i.encSize
  | .newConst _ w h _ => w * h
  | .newLike _ like _ _ _ _ => like.encSize
  | .composited bg _ => bg.encSize

/-- The encoded response body: which image was saved in which format. -/
inductive Encoded where
  /-- `save(buffer, format="PNG", optimize=True)`. -/
  | png (i : Img) (optimize : Bool)
  /-- `save(buffer, format="JPEG", quality=q)`. -/
  | jpeg (i : Img) (quality : Nat)
deriving Repr, DecidableEq

/-- Byte size of an encoded buffer (nominal, see `Img.encSize`). -/
def Encoded.size : Encoded → Nat
  | .png i _ => i.encSize
  | .jpeg i _ => i.encSize

/-- The `fastapi.responses.Response` built by `remove_background`. -/
structure AIResponse where
  content : Encoded
  media_type : String
  headers : List (String × String)
deriving Repr, DecidableEq

/-- Renders the processing time the way the f-string
`f"{processing_time:.2f}s"` does, up to decimal formatting. -/
def fmtSeconds (t : ℚ) : String :=
  toString t ++ "s"

/-- The Python `str.startswith`, on the character list of the string so
that it evaluates by kernel reduction. -/
def strStartsWith (s p : String) : Bool :=
  s.data.take p.data.length == p.data

/-- The Python `str.lower`, on the character list of the string so that
it evaluates by kernel reduction. -/
def strToLower (s : String) : String :=
  ⟨s.data.map Char.toLower⟩

/-- The parameters of one `/remove-background` request; defaults are
`model="u2net"`, `output_format="png"`. -/
structure RBRequest where
  image : UploadFileModel
  model : String
  output_format : String
deriving Repr, DecidableEq

/-- The body of the `try:` block of `remove_background` (app.py lines
129–219), as a function of the module globals, the elapsed processing
time `t` and the request.  Returns the built `Response` together with
the rembg inference it performed, or the exception the body raised. -/
def remove_background_body (g : Globals) (t : ℚ) (req : RBRequest) :
    Except PyExc (AIResponse × Img) :=
  -- `if model not in rembg_sessions:` — reading the name `rembg_sessions`
  -- raises NameError when it is unbound.
  match g.rembg_sessions with
  | none => .error (.err "name rembg_sessions is not defined")
  | some sessions =>
    if (sessions.lookup req.model).isNone then
      .error (.http ⟨400,
        "Invalid model. Available models: " ++ toString (sessions.map Prod.fst)⟩)
    else
      -- `selected_session = rembg_sessions[model]` — note: never used below;
      -- the inference is run with the global `rembg_session` instead.
      let selected_session := sessions.lookup req.model
      if ¬ strStartsWith req.image.content_type "image/" then
        .error (.http ⟨400, "File must be an image"⟩)
      else
        let image_data := req.image.data
        if image_data.length = 0 then
          .error (.http ⟨400, "Empty image file"⟩)
        else if ¬ req.image.decodable then
          -- `Image.open` raised: re-raised as a 400 by the inner handler.
          .error (.http ⟨400, "Invalid image format: cannot identify image file"⟩)
        else
          let pil0 : Img := .decoded image_data req.image.decodedMode
          let pil_image : Img :=
            if req.image.decodedMode ≠ "RGB" then .converted pil0 "RGB" else pil0
          -- `processed_image = remove(pil_image, session=rembg_session)`
          let processed_image : Img := .removed pil_image g.rembg_session
          let (output, media_type) :
              Encoded × String :=
            if strToLower req.output_format = "jpg" ∨ strToLower req.output_format = "jpeg"
            then
              let white_bg : Img := .newLike "RGBA" processed_image 255 255 255 255
              let final_image : Img := .composited white_bg processed_image
              (.jpeg (.converted final_image "RGB") 95, "image/jpeg")
            else
              (.png processed_image true, "image/png")
          let _ := selected_session
          .ok ({ content := output
                 media_type := media_type
                 headers :=
                   [("X-Processing-Time", fmtSeconds t),
                    ("X-Original-Size", toString image_data.length),
                    ("X-Processed-Size", toString output.size),
                    ("Content-Disposition",
                     "attachment; filename=\"processed_" ++ req.image.filename ++ "\"")] },
               processed_image)

/-- `stats` update of the success path of `remove_background`
(app.py lines 200–205). -/
def successStats (st : Stats) (t : ℚ) : Stats :=
  { totalProcessed := st.totalProcessed + 1
    totalErrors := st.totalErrors
    totalProcessingTime := st.totalProcessingTime + t
    averageProcessingTime :=
      (st.totalProcessingTime + t) / ((st.totalProcessed : ℚ) + 1) }

/-- The whole `/remove-background` handler: the body above wrapped in
the `try / except HTTPException / except Exception` of app.py lines
133–234.  Returns the updated `stats` and either the response or the
`HTTPException` that propagates to the client. -/
def remove_background (g : Globals) (st : Stats) (t : ℚ) (req : RBRequest) :
    Stats × Except HTTPExc AIResponse :=
  match remove_background_body g t req with
  | .ok (resp, _) => (successStats st t, .ok resp)
  | .error (.http e) =>
      -- `except HTTPException: raise` — no stats change.
      (st, .error e)
  | .error (.err m) =>
      -- `except Exception` — total_errors += 1, re-raised as a 500.
      ({ st with totalErrors := st.totalErrors + 1 },
       .error ⟨500, "Failed to process image: " ++ m⟩)

/-- The claimed relation between the `stats` fields: the average is the
total processing time over the number of processed images whenever
anything has been processed. -/
def statsInv (st : Stats) : Prop :=
  st.totalProcessed ≠ 0 →
    st.averageProcessingTime = st.totalProcessingTime / (st.totalProcessed : ℚ)

/-- A rembg inference call recorded by the trace semantics:
which session it used, on which image, and whether it was a warm-up
dummy inference. -/
structure Infer where
  session : Option Session
  image : Img
  warmup : Bool
deriving Repr, DecidableEq

/-- The dummy image of the warm-up calls:
`Image.new("RGB", (100, 100), color="white")`. -/
def dummyImage : Img := .newConst "RGB" 100 100 "white"

/-- The test image of the health check:
`Image.new("RGB", (32, 32), color="red")`. -/
def testImage : Img := .newConst "RGB" 32 32 "red"

/-- The startup part of `lifespan` (app.py lines 32–43): load the
`u2net` session into the global and warm it up with a dummy inference. -/
def lifespan_startup (g : Globals) : Globals × List Infer :=
  let s : Session := ⟨"u2net"⟩
  ({ g with rembg_session := some s }, [⟨some s, dummyImage, true⟩])

/-- The model whitelist of `switch_model` (app.py line 305). -/
def available_models : List String :=
  ["u2net", "u2netp", "u2net_human_seg", "silueta"]

/-- The `/switch-model` handler (app.py lines 300–334): reject unknown
models with a 400; otherwise run the `try:` block — create the new
session, assign it to the global, then warm it up with a dummy
inference.  `newSessionOk` and `warmupOk` are the outcomes of the two
external library calls (the wrapped library messages are abstracted).
If `new_session` throws, the global still holds the old session; if the
warm-up `remove` throws, the global has already been reassigned, so the
newly created — not warmed-up — session stays installed; both failures
are answered with a 500 by the `except Exception` clause. -/
def switch_model (g : Globals) (model_name : String)
    (newSessionOk warmupOk : Bool) :
    Globals × Except HTTPExc String × List Infer :=
  if model_name ∉ available_models then
    (g,
     .error ⟨400, "Model " ++ model_name ++ " not available. Choose from: "
       ++ toString available_models⟩,
     [])
  else if ¬ newSessionOk then
    -- `rembg_session = new_session(model_name)` raised before assigning.
    (g, .error ⟨500, "Failed to switch model: new_session failed"⟩, [])
  else
    let s : Session := ⟨model_name⟩
    if warmupOk then
      ({ g with rembg_session := some s },
       .ok ("Successfully switched to " ++ model_name),
       [⟨some s, dummyImage, true⟩])
    else
      -- the warm-up inference raised: the reassigned session remains.
      ({ g with rembg_session := some s },
       .error ⟨500, "Failed to switch model: warm-up inference failed"⟩,
       [⟨some s, dummyImage, true⟩])

/-- The body of the `/health` endpoint. -/
structure HealthBody where
  status : String
  model : String
deriving Repr, DecidableEq

/-- The `/health` handler (app.py lines 81–110).  `testOk` is the
outcome of the external test inference `remove(test_image, ...)`.
Any exception of the body — the 503 raised for a missing session
included, since the handler catches bare `Exception` — is turned into
a 503 "Service unhealthy" response. -/
def health_check (g : Globals) (testOk : Bool) :
    Except HTTPExc HealthBody × List Infer :=
  match g.rembg_session with
  | none =>
      (.error ⟨503, "Service unhealthy: "
        ++ PyExc.message (.http ⟨503, "AI model not loaded"⟩)⟩, [])
  | some s =>
      if testOk then
        (.ok { status := "healthy", model := "u2net" }, [⟨some s, testImage, false⟩])
      else
        (.error ⟨503, "Service unhealthy: inference failed"⟩,
         [⟨some s, testImage, false⟩])

/-- One element of the `results` list of `/batch-remove-background`. -/
structure BatchEntry where
  filename : String
  success : Bool
  size : Option Nat
  error : Option String
deriving Repr, DecidableEq

/-- The entry produced for one image of the batch loop (app.py lines
268–282).  The call `remove_background(image, output_format)` passes
the `output_format` of the batch *positionally as the `model` argument*, so
the inner request uses `model := output_format` and the default
`output_format := "png"`.  Every exception — `HTTPException` included —
is caught and recorded as a `success=False` entry. -/
def batchEntry (g : Globals) (t : ℚ) (output_format : String)
    (im : UploadFileModel) : BatchEntry :=
  match remove_background_body g t { image := im, model := output_format, output_format := "png" } with
  | .ok (resp, _) =>
      { filename := im.filename, success := true
        size := some resp.content.size, error := none }
  | .error (.http e) =>
      { filename := im.filename, success := false
        size := none, error := some (PyExc.message (.http e)) }
  | .error (.err m) =>
      { filename := im.filename, success := false
        size := none
        error := some (PyExc.message (.http
          ⟨500, "Failed to process image: " ++ m⟩)) }

/-- The `for image in images:` loop of `/batch-remove-background`,
threading the `stats` updates the inner handler performs. -/
def batchLoop (g : Globals) (t : ℚ) (output_format : String) :
    Stats → List UploadFileModel → Stats × List BatchEntry
  | st, [] => (st, [])
  | st, im :: rest =>
      let (st1, _) := remove_background g st t
        { image := im, model := output_format, output_format := "png" }
      let entry := batchEntry g t output_format im
      let (st2, entries) := batchLoop g t output_format st1 rest
      (st2, entry :: entries)

/-- The `/batch-remove-background` handler (app.py lines 246–284):
batches of more than 10 images are rejected with a 400 before any
processing; otherwise each image is processed in order by the inner
handler and its outcome recorded. -/
def batch_remove_background (g : Globals) (st : Stats) (t : ℚ)
    (images : List UploadFileModel) (output_format : String) :
    Stats × Except HTTPExc (List BatchEntry) :=
  if images.length > 10 then
    (st, .error ⟨400, "Maximum 10 images allowed per batch"⟩)
  else
    let (st1, entries) := batchLoop g t output_format st images
    (st1, .ok entries)

/-- The events the service can undergo: the `lifespan` startup hook and
the three stateful endpoints.  Each request event carries the
environment inputs of that request (elapsed time, payload, library
outcome). -/
inductive Ev where
  | startup
  | removeBg (t : ℚ) (req : RBRequest)
  | switchModel (name : String) (newSessionOk warmupOk : Bool)
  | health (testOk : Bool)
deriving Repr, DecidableEq

/-- The full mutable state of the module. -/
structure AIState where
  g : Globals
  stats : Stats
deriving Repr, DecidableEq

/-- Module state at import time. -/
def initState : AIState := { g := initGlobals, stats := initStats }

/-- One event step: the next module state and the rembg inference calls
the event performed. -/
def step (s : AIState) : Ev → AIState × List Infer
  | .startup =>
      let (g1, infers) := lifespan_startup s.g
      ({ s with g := g1 }, infers)
  | .removeBg t req =>
      let (st1, res) := remove_background s.g s.stats t req
      ({ s with stats := st1 },
       match res with
       | .ok _ =>
           -- the success path ran `remove(pil_image, session=rembg_session)`
           match remove_background_body s.g t req with
           | .ok (_, .removed pil sess) => [⟨sess, pil, false⟩]
           | _ => []
       | .error _ => [])
  | .switchModel name nOk wOk =>
      let (g1, _, infers) := switch_model s.g name nOk wOk
      ({ s with g := g1 }, infers)
  | .health testOk =>
      let (_, infers) := health_check s.g testOk
      (s, infers)

/-- Runs a list of events from a state, accumulating inference calls. -/
def run (s : AIState) : List Ev → AIState × List Infer
  | [] => (s, [])
  | ev :: evs =>
      let (s1, infers) := step s ev
      let (s2, rest) := run s1 evs
      (s2, infers ++ rest)

/-- Module state right after the `lifespan` startup hook ran. -/
def startedState : AIState := (step initState .startup).1

/-- A concrete well-formed upload: a small decodable PNG of RGB mode. -/
def sampleUpload : UploadFileModel :=
  { filename := "photo.png", content_type := "image/png"
    data := [137, 80, 78, 71], decodable := true, decodedMode := "RGB" }

/-- Module globals after startup followed by a successful
`/switch-model` to `silueta` (both library calls succeed). -/
def gAfterSwitch : Globals :=
  (switch_model startedState.g "silueta" true true).1

/-- Hypothetical globals in which the name `rembg_sessions` is bound to
a one-model dictionary, for exercising the paths of `remove_background`
beyond its `NameError`. -/
def boundGlobals : Globals :=
  { rembg_session := some ⟨"u2net"⟩
    rembg_sessions := some [("u2net", ⟨"u2net"⟩)] }

/-- The processed image `remove_background` computes for
`sampleUpload` under `boundGlobals`. -/
def sampleProcessed : Img :=
  .removed (.decoded [137, 80, 78, 71] "RGB") (some ⟨"u2net"⟩)

/-- The response `remove_background` builds for `sampleUpload` under
`boundGlobals` with `output_format="JPG"` and a 2-second processing
time. -/
def sampleJpegResponse : AIResponse :=
  { content := .jpeg (.converted (.composited
      (.newLike "RGBA" sampleProcessed 255 255 255 255) sampleProcessed) "RGB") 95
    media_type := "image/jpeg"
    headers :=
      [("X-Processing-Time", fmtSeconds 2), ("X-Original-Size", "4"),
       ("X-Processed-Size", "4"),
       ("Content-Disposition", "attachment; filename=\"processed_photo.png\"")] }

end AIService

namespace CleanArch

/-- An `Express.Multer.File` as the use cases and the repository see it. -/
structure MulterFile where
  originalname : String
  mimetype : String
  size : Nat
  buffer : List Nat
deriving Repr, DecidableEq

/-- The `Image` domain entity.  `uuidv4()` is modelled as a fresh-id
supply, so ids are naturals; `uploadedAt` is a numeric timestamp. -/
structure ImageEntity where
  id : Nat
  originalName : String
  fileName : String
  mimeType : String
  size : Nat
  uploadedAt : Nat
deriving Repr, DecidableEq

/-- Looks a key up in an association list, first match wins
(JS `Map.get`). -/
def msGet (m : List (Nat × ImageEntity)) (k : Nat) : Option ImageEntity :=
  m.lookup k

/-- JS `Map.set`: bind `k` to `v`, dropping any previous binding. -/
def msSet (m : List (Nat × ImageEntity)) (k : Nat) (v : ImageEntity) :
    List (Nat × ImageEntity) :=
  (k, v) :: m.filter (fun p => p.1 != k)

/-- JS `Map.delete`: drop the binding of `k`. -/
def msDelete (m : List (Nat × ImageEntity)) (k : Nat) :
    List (Nat × ImageEntity) :=
  m.filter (fun p => p.1 != k)

/-- Reads a stored file from the modelled disk. -/
def fsGet (fs : List (String × List Nat)) (p : String) : Option (List Nat) :=
  fs.lookup p

/-- `fs.writeFile`: bind path `p` to the byte contents `b`. -/
def fsSet (fs : List (String × List Nat)) (p : String) (b : List Nat) :
    List (String × List Nat) :=
  (p, b) :: fs.filter (fun q => q.1 != p)

/-- `fs.unlink`: drop the file at path `p`. -/
def fsDelete (fs : List (String × List Nat)) (p : String) :
    List (String × List Nat) :=
  fs.filter (fun q => q.1 != p)

/-- The state of a `FileSystemImageRepository`: the in-memory
`Map<string, Image>` index, the files on disk under the upload
directory, and the fresh-id supply standing for `uuidv4()`. -/
structure RepoState where
  images : List (Nat × ImageEntity)
  fsFiles : List (String × List Nat)
  nextId : Nat
deriving Repr, DecidableEq

/-- A freshly constructed repository: empty index, empty disk. -/
def initRepo : RepoState := { images := [], fsFiles := [], nextId := 0 }

/-- The default upload directory of the repository. -/
def uploadDir : String := "public/uploads"

/-- `path.join(dir, name)`. -/
def pathJoin (d f : String) : String := d ++ "/" ++ f

/-- `FileSystemImageRepository.save`: draw a fresh id, write the bytes of the file to the upload directory under `"<id>_<originalname>"`, index the
metadata record under the id and return it.  `now` stands for
`new Date()`. -/
def save (s : RepoState) (file : MulterFile) (now : Nat) :
    ImageEntity × RepoState :=
  let id := s.nextId
  let fileName := toString id ++ "_" ++ file.originalname
  let filePath := pathJoin uploadDir fileName
  let image : ImageEntity :=
    { id := id, originalName := file.originalname, fileName := fileName
      mimeType := file.mimetype, size := file.size, uploadedAt := now }
  (image,
   { images := msSet s.images id image
     fsFiles := fsSet s.fsFiles filePath file.buffer
     nextId := s.nextId + 1 })

/-- `FileSystemImageRepository.findById`: `this.images.get(id) || null`. -/
def findById (s : RepoState) (id : Nat) : Option ImageEntity :=
  msGet s.images id

/-- `FileSystemImageRepository.delete`.  `unlinkOk` is the outcome of
the external `fs.unlink` call; when it throws the `catch` returns
`false` with the index untouched (and the file is modelled as left in
place). -/
def deleteImage (s : RepoState) (id : Nat) (unlinkOk : Bool) :
    Bool × RepoState :=
  match msGet s.images id with
  | none => (false, s)
  | some image =>
      if unlinkOk then
        (true,
         { s with
             images := msDelete s.images id
             fsFiles := fsDelete s.fsFiles (pathJoin uploadDir image.fileName) })
      else
        (false, s)

/-- The mime types `UploadImageUseCase` accepts. -/
def allowedMimeTypes : List String :=
  ["image/jpeg", "image/png", "image/webp", "image/gif"]

/-- The 10MB size limit of `UploadImageUseCase`. -/
def maxSize : Nat := 10 * 1024 * 1024

/-- `UploadImageUseCase.execute`: validate the file, then save it
through the repository.  Throws are errors paired with the unchanged
repository state. -/
def execute (s : RepoState) (file : Option MulterFile) (now : Nat) :
    Except String ImageEntity × RepoState :=
  match file with
  | none => (.error "No file provided", s)
  | some f =>
      if f.mimetype ∉ allowedMimeTypes then
        (.error "Invalid file type. Only JPEG, PNG, WEBP and GIF are allowed", s)
      else if f.size > maxSize then
        (.error "File size exceeds 10MB limit", s)
      else
        let (img, s1) := save s f now
        (.ok img, s1)

/-- A concrete upload for exercising the use cases. -/
def sampleFile : MulterFile :=
  { originalname := "cat.png", mimetype := "image/png"
    size := 4, buffer := [1, 2, 3, 4] }

/-- Repository operations, for reasoning over usage traces.  Each
`del` carries the outcome of its `fs.unlink` call. -/
inductive ROp where
  | save (file : MulterFile) (now : Nat)
  | del (id : Nat) (unlinkOk : Bool)
deriving Repr, DecidableEq

/-- Runs a list of repository operations. -/
def runRepo (s : RepoState) : List ROp → RepoState
  | [] => s
  | .save f now :: rest => runRepo (save s f now).2 rest
  | .del id ok :: rest => runRepo (deleteImage s id ok).2 rest

/-- The ids handed out by the `save` operations of a trace run from a
given state. -/
def returnedIds (s : RepoState) : List ROp → List Nat
  | [] => []
  | .save f now :: rest => s.nextId :: returnedIds (save s f now).2 rest
  | .del id ok :: rest => returnedIds (deleteImage s id ok).2 rest

end CleanArch

namespace ModelledAI

open AIService

/-- The four processing modes of the AI microservice named by the spec.
The remove-background mode is implemented in the sources
(`AIService.remove_background`); the other three are spec-modelled
below. -/
inductive Mode where
  | removeBackground
  | enhance
  | crop
  | restoration
deriving Repr, DecidableEq

/-- Modelled from the spec: the `/enhance`, `/crop` and
restoration/face-swap endpoints of the AI microservice are missing from
the sources — only their backend callers (`ImageService.enhanceImage`,
`cropImage`, `faceSwapImage`, `restoreImage` and the image routes) are
present — so requests for these three modes are modelled from the spec
sentence "parameter validation and dispatch across four processing
modes (remove-background, enhance, crop, restoration/face-swap)", with
the parameters of each mode taken from its backend caller.  The fourth
mode, remove-background, is the `remove_background` endpoint embedded
above and is not re-modelled here. -/
inductive ModelledRequest where
  | enhance (image : UploadFileModel)
      (brightness contrast saturation sharpness : ℚ)
      (autoEnhance denoise : Bool)
  | crop (image : UploadFileModel) (width height : Nat) (x y : Option Nat)
      (autoDetect : Bool)
  | restoration (image : UploadFileModel) (mode : String)
      (faceImage styleImage : Option UploadFileModel)
deriving Repr, DecidableEq

/-- The processing mode a modelled request addresses. -/
def ModelledRequest.mode : ModelledRequest → Mode
  | .enhance .. => .enhance
  | .crop .. => .crop
  | .restoration .. => .restoration

/-- The base image of a modelled request. -/
def ModelledRequest.image : ModelledRequest → UploadFileModel
  | .enhance im .. => im
  | .crop im .. => im
  | .restoration im .. => im

/-- Modelled from the spec: a processed result of one of the three
modelled modes, tagged with the mode whose processor produced it. -/
inductive ModeResult where
  | enhanced (out : Img)
  | cropped (out : Img)
  | restored (out : Img)
deriving Repr, DecidableEq

/-- The mode whose processor produced a result. -/
def ModeResult.mode : ModeResult → Mode
  | .enhanced _ => .enhance
  | .cropped _ => .crop
  | .restored _ => .restoration

/-- The restoration/face-swap sub-modes accepted by the face-swap
route. -/
def faceModes : List String := ["face-swap", "style-transfer"]

/-- Modelled from the spec: per-mode parameter validation for the three
modelled modes.  Every mode requires an image payload with an `image/*`
content type; the face-swap sub-mode requires a face image and the
style-transfer sub-mode a style image, mirroring the checks its backend
caller performs. -/
def validateRequest : ModelledRequest → Option HTTPExc
  | .enhance im _ _ _ _ _ _ =>
      if ¬ strStartsWith im.content_type "image/" then
        some ⟨400, "File must be an image"⟩
      else none
  | .crop im _ _ _ _ _ =>
      if ¬ strStartsWith im.content_type "image/" then
        some ⟨400, "File must be an image"⟩
      else none
  | .restoration im mode faceImage styleImage =>
      if ¬ strStartsWith im.content_type "image/" then
        some ⟨400, "File must be an image"⟩
      else if mode ∉ faceModes then
        some ⟨400, "Invalid mode. Available modes: " ++ toString faceModes⟩
      else if mode = "face-swap" ∧ faceImage.isNone then
        some ⟨400, "Please upload a face_image for face swap mode"⟩
      else if mode = "style-transfer" ∧ styleImage.isNone then
        some ⟨400, "Please upload a style_image for style transfer mode"⟩
      else none

/-- Modelled from the spec: dispatch a validated request of one of the
three modelled modes to the processor of its mode; invalid parameters
are rejected without processing. -/
def validateAndDispatch (req : ModelledRequest) : Except HTTPExc ModeResult :=
  match validateRequest req with
  | some e => .error e
  | none =>
      let decodedImg : Img := .decoded req.image.data req.image.decodedMode
      match req with
      | .enhance .. => .ok (.enhanced (.converted decodedImg "RGB"))
      | .crop .. => .ok (.cropped (.converted decodedImg "RGB"))
      | .restoration .. => .ok (.restored (.converted decodedImg "RGB"))

end ModelledAI

/-! ## Association list lemmas -/

theorem lookup_filter_ne {α β : Type} [BEq α] [LawfulBEq α]
    (m : List (α × β)) (k k' : α) (h : k' ≠ k) :
    (m.filter fun p => p.1 != k).lookup k' = m.lookup k' := by
  induction m with
  | nil => rfl
  | cons a rest ih =>
    obtain ⟨a1, a2⟩ := a
    by_cases ha : a1 = k
    · subst ha
      have h2 : (k' == a1) = false := by simp [h]
      simp [List.filter_cons, List.lookup, h2, ih]
    · have h1 : (a1 != k) = true := by simp [ha]
      simp only [List.filter_cons, h1, if_true]
      by_cases hk : k' = a1
      · subst hk; simp [List.lookup]
      · have h2 : (k' == a1) = false := by simp [hk]
        simp [List.lookup, h2, ih]

theorem lookup_filter_self {α β : Type} [BEq α] [LawfulBEq α]
    (m : List (α × β)) (k : α) :
    (m.filter fun p => p.1 != k).lookup k = none := by
  induction m with
  | nil => rfl
  | cons a rest ih =>
    obtain ⟨a1, a2⟩ := a
    by_cases ha : a1 = k
    · subst ha; simp [List.filter_cons, ih]
    · have h1 : (a1 != k) = true := by simp [ha]
      have h2 : (k == a1) = false := by simp [Ne.symm ha]
      simp [List.filter_cons, h1, List.lookup, h2, ih]

namespace CleanArch

theorem msGet_msSet (m : List (Nat × ImageEntity)) (k k' : Nat) (v : ImageEntity) :
    msGet (msSet m k v) k' = if k' = k then some v else msGet m k' := by
  by_cases h : k' = k
  · subst h; simp [msGet, msSet, List.lookup]
  · have h2 : (k' == k) = false := by simp [h]
    simp [msGet, msSet, List.lookup, h2, h, lookup_filter_ne m k k' h]

theorem msGet_msDelete (m : List (Nat × ImageEntity)) (k k' : Nat) :
    msGet (msDelete m k) k' = if k' = k then none else msGet m k' := by
  by_cases h : k' = k
  · subst h; simp [msGet, msDelete, lookup_filter_self]
  · simp [msGet, msDelete, h, lookup_filter_ne m k k' h]

theorem fsGet_fsSet (fs : List (String × List Nat)) (p p' : String) (b : List Nat) :
    fsGet (fsSet fs p b) p' = if p' = p then some b else fsGet fs p' := by
  by_cases h : p' = p
  · subst h; simp [fsGet, fsSet, List.lookup]
  · have h2 : (p' == p) = false := by simp [h]
    simp [fsGet, fsSet, List.lookup, h2, h, lookup_filter_ne fs p p' h]

theorem fsGet_fsDelete (fs : List (String × List Nat)) (p p' : String) :
    fsGet (fsDelete fs p) p' = if p' = p then none else fsGet fs p' := by
  by_cases h : p' = p
  · subst h; simp [fsGet, fsDelete, lookup_filter_self]
  · simp [fsGet, fsDelete, h, lookup_filter_ne fs p p' h]

theorem findById_runRepo_not_returned (ops : List ROp) :
    ∀ (s : RepoState) (id : Nat), msGet s.images id = none →
      id ∉ returnedIds s ops → msGet (runRepo s ops).images id = none := by
  induction ops with
  | nil => intro s id h _; simpa [runRepo] using h
  | cons op rest ih =>
    intro s id h hnr
    cases op with
    | save f now =>
        simp only [returnedIds, List.mem_cons, not_or] at hnr
        obtain ⟨hne, hnr2⟩ := hnr
        simp only [runRepo]
        refine ih _ id ?_ hnr2
        show msGet (msSet s.images s.nextId _) id = none
        rw [msGet_msSet]
        simp [hne, h]
    | del id0 ok =>
        simp only [returnedIds] at hnr
        simp only [runRepo]
        refine ih _ id ?_ hnr
        rcases hd : msGet s.images id0 with _ | img
        · simpa [deleteImage, hd] using h
        · cases ok
          · simpa [deleteImage, hd] using h
          · rw [show (deleteImage s id0 true).2.images = msDelete s.images id0 by
              simp [deleteImage, hd]]
            rw [msGet_msDelete]
            by_cases hii : id = id0 <;> simp [hii, h]

end CleanArch

namespace CleanArch

/-- C5: the CRUD image-repository is file-system backed and in-memory
indexed with a save/findById round-trip: `save` returns a metadata
record under a fresh id, writes the bytes of the file to the upload
directory under the name `<fresh-id>_<originalName>`, and `findById`
with the returned id yields exactly that record; `findById` with an id
that was never handed out by a `save`, or whose entry was deleted,
returns null. -/
theorem save_findById_roundtrip :
    (∀ (s : RepoState) (f : MulterFile) (now : Nat),
        (save s f now).1 =
          { id := s.nextId, originalName := f.originalname
            fileName := toString s.nextId ++ "_" ++ f.originalname
            mimeType := f.mimetype, size := f.size, uploadedAt := now }
        ∧ findById (save s f now).2 (save s f now).1.id = some (save s f now).1
        ∧ fsGet (save s f now).2.fsFiles
            (pathJoin uploadDir (save s f now).1.fileName) = some f.buffer)
    ∧ (∀ (ops : List ROp) (id : Nat),
        id ∉ returnedIds initRepo ops →
          findById (runRepo initRepo ops) id = none)
    ∧ (∀ (s : RepoState) (id : Nat),
        findById (deleteImage s id true).2 id = none) := by
  refine ⟨fun s f now => ⟨?_, ?_, ?_⟩, fun ops id hid => ?_, fun s id => ?_⟩
  · rfl
  · show msGet (msSet s.images s.nextId _) s.nextId = _
    rw [msGet_msSet]; simp only [if_pos rfl]; rfl
  · simp only [save]
    rw [fsGet_fsSet]; simp
  · exact findById_runRepo_not_returned ops initRepo id rfl hid
  · rcases hd : msGet s.images id with _ | img
    · simp [deleteImage, hd, findById, hd]
    · show msGet (deleteImage s id true).2.images id = none
      rw [show (deleteImage s id true).2.images = msDelete s.images id by
        simp [deleteImage, hd]]
      rw [msGet_msDelete]; simp

/-- Witness for `save_findById_roundtrip`: a concrete id never returned
by the saves of a concrete trace is not found. -/
theorem save_findById_roundtrip_witness :
    (3 ∉ returnedIds initRepo [.save sampleFile 5])
    ∧ findById (runRepo initRepo [.save sampleFile 5]) 3 = none := by
  exact ⟨by decide, save_findById_roundtrip.2.1 [.save sampleFile 5] 3 (by decide)⟩

end CleanArch

namespace CleanArch

/-- C6: repository delete is atomic on error: for an id absent from the
in-memory index, `delete` returns false and changes neither the index
nor the file system; for a present id it unlinks the stored file and
removes the index entry, returning true; and if the `fs.unlink` call
throws, `delete` returns false and the state — the index entry included
— is retained unchanged. -/
theorem delete_is_atomic :
    (∀ (s : RepoState) (id : Nat) (ok : Bool),
        findById s id = none → deleteImage s id ok = (false, s))
    ∧ (∀ (s : RepoState) (id : Nat) (img : ImageEntity),
        findById s id = some img →
          deleteImage s id true =
            (true,
             { s with images := msDelete s.images id
                      fsFiles := fsDelete s.fsFiles (pathJoin uploadDir img.fileName) })
          ∧ findById (deleteImage s id true).2 id = none
          ∧ fsGet (deleteImage s id true).2.fsFiles
              (pathJoin uploadDir img.fileName) = none)
    ∧ (∀ (s : RepoState) (id : Nat) (img : ImageEntity),
        findById s id = some img → deleteImage s id false = (false, s)) := by
  have key : ∀ (s : RepoState) (id : Nat) (img : ImageEntity),
      findById s id = some img →
        deleteImage s id true =
          (true,
           { s with images := msDelete s.images id
                    fsFiles := fsDelete s.fsFiles (pathJoin uploadDir img.fileName) }) := by
    intro s id img h
    simp only [findById] at h
    simp [deleteImage, h]
  refine ⟨fun s id ok h => ?_, fun s id img h => ⟨key s id img h, ?_, ?_⟩,
    fun s id img h => ?_⟩
  · simp only [findById] at h
    simp [deleteImage, h]
  · rw [key s id img h]
    show msGet (msDelete s.images id) id = none
    rw [msGet_msDelete]; simp
  · rw [key s id img h]
    show fsGet (fsDelete s.fsFiles _) _ = none
    rw [fsGet_fsDelete]; simp
  · simp only [findById] at h
    simp [deleteImage, h]

/-- Witness for `delete_is_atomic` at a concrete repository state. -/
theorem delete_is_atomic_witness :
    (findById (save initRepo sampleFile 7).2 0 = some (save initRepo sampleFile 7).1)
    ∧ deleteImage (save initRepo sampleFile 7).2 0 false =
        (false, (save initRepo sampleFile 7).2)
    ∧ (findById initRepo 1 = none)
    ∧ deleteImage initRepo 1 true = (false, initRepo) := by
  refine ⟨rfl, delete_is_atomic.2.2 _ _ _ rfl, rfl, delete_is_atomic.1 _ _ _ rfl⟩

/-- C7: upload validation rejects before saving anything:
`UploadImageUseCase.execute` throws "No file provided" for a missing
file, the invalid-file-type error for a mimetype outside
jpeg/png/webp/gif, and "File size exceeds 10MB limit" for a size
strictly over `10*1024*1024` bytes, each time leaving the repository
state unchanged; only otherwise does it save through the repository and
return the saved image. -/
theorem upload_validation :
    (∀ (s : RepoState) (now : Nat),
        execute s none now = (.error "No file provided", s))
    ∧ (∀ (s : RepoState) (f : MulterFile) (now : Nat),
        f.mimetype ∉ allowedMimeTypes →
          execute s (some f) now =
            (.error "Invalid file type. Only JPEG, PNG, WEBP and GIF are allowed", s))
    ∧ (∀ (s : RepoState) (f : MulterFile) (now : Nat),
        f.mimetype ∈ allowedMimeTypes → f.size > maxSize →
          execute s (some f) now = (.error "File size exceeds 10MB limit", s))
    ∧ (∀ (s : RepoState) (f : MulterFile) (now : Nat),
        f.mimetype ∈ allowedMimeTypes → f.size ≤ maxSize →
          execute s (some f) now = (.ok (save s f now).1, (save s f now).2)) := by
  refine ⟨fun s now => rfl, fun s f now h => ?_, fun s f now h1 h2 => ?_,
    fun s f now h1 h2 => ?_⟩
  · simp [execute, h]
  · simp [execute, h1, h2]
  · have h3 : ¬ f.size > maxSize := not_lt.mpr h2
    simp [execute, h1, h3]

/-- Witness for `upload_validation` at concrete files. -/
theorem upload_validation_witness :
    ("text/plain" ∉ allowedMimeTypes)
    ∧ execute initRepo (some { sampleFile with mimetype := "text/plain" }) 2 =
        (.error "Invalid file type. Only JPEG, PNG, WEBP and GIF are allowed", initRepo)
    ∧ ("image/png" ∈ allowedMimeTypes) ∧ (10485761 > maxSize)
    ∧ execute initRepo (some { sampleFile with size := 10485761 }) 2 =
        (.error "File size exceeds 10MB limit", initRepo)
    ∧ (sampleFile.size ≤ maxSize)
    ∧ execute initRepo (some sampleFile) 2 =
        (.ok (save initRepo sampleFile 2).1, (save initRepo sampleFile 2).2) := by
  refine ⟨by decide, upload_validation.2.1 _ _ 2 (by decide), by decide, by decide,
    upload_validation.2.2.1 _ _ 2 (by decide) (by decide), by decide,
    upload_validation.2.2.2 _ _ 2 (by decide) (by decide)⟩

end CleanArch

namespace AIService

theorem step_preserves_sessions (s : AIState) (ev : Ev) :
    (step s ev).1.g.rembg_sessions = s.g.rembg_sessions := by
  cases ev with
  | startup => simp [step, lifespan_startup]
  | removeBg t req =>
      rcases h : remove_background s.g s.stats t req with ⟨st1, res⟩
      simp [step, h]
  | switchModel name nOk wOk =>
      by_cases h : name ∈ available_models
      · cases nOk <;> cases wOk <;> simp [step, switch_model, h]
      · cases nOk <;> cases wOk <;> simp [step, switch_model, h]
  | health ok => rfl

theorem run_preserves_sessions (evs : List Ev) :
    ∀ s : AIState, (run s evs).1.g.rembg_sessions = s.g.rembg_sessions := by
  induction evs with
  | nil => intro s; rfl
  | cons ev rest ih =>
      intro s
      calc (run s (ev :: rest)).1.g.rembg_sessions
          = (run (step s ev).1 rest).1.g.rembg_sessions := rfl
        _ = (step s ev).1.g.rembg_sessions := ih _
        _ = s.g.rembg_sessions := step_preserves_sessions s ev

/-- C2: refuted as stated — in every module state reachable from
import, the name `rembg_sessions` is unbound (`lifespan` assigns only
the singular `rembg_session`), so every `/remove-background` request,
whatever its `model` parameter, raises `NameError` at the model check,
is caught by the bare `except`, increments `total_errors` and is
answered with HTTP 500: no request gets the claimed 400 listing and
none is dispatched with a session stored in the dictionary.  The last
conjunct evaluates the handler at the concrete failing input: model
`u2net` with a valid image right after startup. -/
theorem remove_background_name_error :
    (∀ evs : List Ev, ((run initState evs).1.g).rembg_sessions = none)
    ∧ (∀ (evs : List Ev) (st : Stats) (t : ℚ) (req : RBRequest),
        (remove_background (run initState evs).1.g st t req).2 =
          .error ⟨500, "Failed to process image: name rembg_sessions is not defined"⟩
        ∧ (remove_background (run initState evs).1.g st t req).1 =
          { st with totalErrors := st.totalErrors + 1 })
    ∧ (remove_background startedState.g initStats 1
        { image := sampleUpload, model := "u2net", output_format := "png" }).2 =
        .error ⟨500, "Failed to process image: name rembg_sessions is not defined"⟩ := by
  have h1 : ∀ evs : List Ev, ((run initState evs).1.g).rembg_sessions = none :=
    fun evs => run_preserves_sessions evs initState
  refine ⟨h1, fun evs st t req => ?_, rfl⟩
  have hb : remove_background_body (run initState evs).1.g t req =
      .error (.err "name rembg_sessions is not defined") := by
    unfold remove_background_body
    rw [h1 evs]
  rw [remove_background, hb]
  exact ⟨rfl, rfl⟩

end AIService

namespace AIService

theorem body_ok_removed (g : Globals) (t : ℚ) (req : RBRequest)
    (r : AIResponse) (img : Img)
    (hok : remove_background_body g t req = .ok (r, img)) :
    ∃ pil, img = .removed pil g.rembg_session := by
  rcases hgs : g.rembg_sessions with _ | sessions
  · simp only [remove_background_body, hgs] at hok
    cases hok
  · simp only [remove_background_body, hgs] at hok
    split_ifs at hok
    all_goals (cases hok; exact ⟨_, rfl⟩)

end AIService

namespace AIService

/-- C3 (amended): model sessions follow the load, warm-up, reuse
lifecycle with one wrinkle in the switch-model error path: the session
is `None` at module load and installed by the startup hook together
with the dummy warm-up inference; remove-background and health requests
never re-create or change the session, and any inference a
remove-background request performs uses the current global session; a
switch-model with an unknown name, or whose `new_session` call throws,
leaves the session unchanged; a switch-model whose `new_session`
succeeds installs the newly created session and performs the dummy
warm-up inference on it — and it installs that session even when the
warm-up inference throws and the switch is answered with a 500, so the
installed session is a warmed-up one only when the switch reports
success. -/
theorem session_lifecycle :
    (initGlobals.rembg_session = none)
    ∧ (∀ (s : AIState) (t : ℚ) (req : RBRequest),
        (step s (.removeBg t req)).1.g.rembg_session = s.g.rembg_session)
    ∧ (∀ (s : AIState) (ok : Bool),
        (step s (.health ok)).1.g.rembg_session = s.g.rembg_session)
    ∧ (∀ s : AIState,
        (step s .startup).1.g.rembg_session = some ⟨"u2net"⟩
        ∧ (step s .startup).2 = [⟨some ⟨"u2net"⟩, dummyImage, true⟩])
    ∧ (∀ (s : AIState) (name : String) (wOk : Bool), name ∈ available_models →
        (step s (.switchModel name true wOk)).1.g.rembg_session = some ⟨name⟩
        ∧ (step s (.switchModel name true wOk)).2 =
            [⟨some ⟨name⟩, dummyImage, true⟩])
    ∧ (∀ (g : Globals) (name : String), name ∈ available_models →
        (switch_model g name true true).2.1 =
          .ok ("Successfully switched to " ++ name)
        ∧ (switch_model g name true false).2.1 =
          .error ⟨500, "Failed to switch model: warm-up inference failed"⟩)
    ∧ (∀ (s : AIState) (name : String) (nOk wOk : Bool),
        name ∉ available_models →
          (step s (.switchModel name nOk wOk)).1.g.rembg_session =
            s.g.rembg_session)
    ∧ (∀ (s : AIState) (name : String) (wOk : Bool),
        (step s (.switchModel name false wOk)).1.g.rembg_session =
          s.g.rembg_session)
    ∧ (∀ (s : AIState) (t : ℚ) (req : RBRequest)
        (inf : Infer), inf ∈ (step s (.removeBg t req)).2 →
          inf.session = s.g.rembg_session ∧ inf.warmup = false) := by
  refine ⟨rfl, fun s t req => ?_, fun s ok => rfl, fun s => ⟨rfl, rfl⟩,
    fun s name wOk h => ?_, fun g name h => ?_, fun s name nOk wOk h => ?_,
    fun s name wOk => ?_, fun s t req inf hmem => ?_⟩
  · rcases h : remove_background s.g s.stats t req with ⟨st1, res⟩
    simp [step, h]
  · cases wOk <;> constructor <;> simp [step, switch_model, h]
  · constructor <;> simp [switch_model, h]
  · cases nOk <;> cases wOk <;> simp [step, switch_model, h]
  · by_cases h : name ∈ available_models <;>
      cases wOk <;> simp [step, switch_model, h]
  · rcases hb : remove_background_body s.g t req with pe | ⟨rp, img⟩
    · rcases pe with e | m <;> simp [step, remove_background, hb] at hmem
    · obtain ⟨pil, hpil⟩ := body_ok_removed s.g t req rp img hb
      subst hpil
      simp [step, remove_background, hb] at hmem
      rw [hmem]
      exact ⟨rfl, rfl⟩

/-- C3 counterexample: after startup, a `/switch-model` to `silueta`
whose warm-up inference throws still replaces the previously loaded
`u2net` session with the new `silueta` one while answering 500 — the
session serving subsequent requests was replaced by a switch-model
that did not produce a warmed-up session, contradicting the claim that
the session is reused until a switch replaces it with a newly loaded
and warmed-up one. -/
theorem switch_warmup_throw_installs_unwarmed :
    startedState.g.rembg_session = some ⟨"u2net"⟩
    ∧ (switch_model startedState.g "silueta" true false).1.rembg_session =
        some ⟨"silueta"⟩
    ∧ (switch_model startedState.g "silueta" true false).2.1 =
        .error ⟨500, "Failed to switch model: warm-up inference failed"⟩ :=
  ⟨rfl, rfl, rfl⟩

/-- Witness for `session_lifecycle` at concrete switch-model events. -/
theorem session_lifecycle_witness :
    ("silueta" ∈ available_models)
    ∧ (step startedState (.switchModel "silueta" true true)).1.g.rembg_session =
        some ⟨"silueta"⟩
    ∧ (switch_model startedState.g "silueta" true true).2.1 =
        .ok ("Successfully switched to " ++ "silueta")
    ∧ ("vgg" ∉ available_models)
    ∧ (step startedState (.switchModel "vgg" true true)).1.g.rembg_session =
        startedState.g.rembg_session := by
  refine ⟨by decide,
    (session_lifecycle.2.2.2.2.1 startedState "silueta" true (by decide)).1,
    (session_lifecycle.2.2.2.2.2.1 startedState.g "silueta" (by decide)).1,
    by decide,
    session_lifecycle.2.2.2.2.2.2.1 startedState "vgg" true true (by decide)⟩

end AIService

namespace AIService

theorem statsInv_successStats (st : Stats) (t : ℚ) :
    statsInv (successStats st t) := by
  intro _
  simp only [successStats, statsInv]
  norm_cast

theorem step_statsInv (s : AIState) (ev : Ev) (h : statsInv s.stats) :
    statsInv (step s ev).1.stats := by
  cases ev with
  | startup => exact h
  | health ok => exact h
  | switchModel name =>
      by_cases hm : name ∈ available_models <;> simp [step, switch_model, hm] <;> exact h
  | removeBg t req =>
      rcases hb : remove_background_body s.g t req with pe | rp
      · rcases pe with e | m
        · simpa [step, remove_background, hb] using h
        · simp only [step, remove_background, hb]
          intro hp
          exact h hp
      · simp only [step, remove_background, hb]
        exact statsInv_successStats s.stats t

theorem run_statsInv (evs : List Ev) :
    ∀ s : AIState, statsInv s.stats → statsInv (run s evs).1.stats := by
  induction evs with
  | nil => intro s h; exact h
  | cons ev rest ih =>
      intro s h
      exact ih (step s ev).1 (step_statsInv s ev h)

/-- C4: after every sequence of events from module start,
`average_processing_time` equals `total_processing_time` divided by
`total_processed` whenever `total_processed > 0`; a successful
remove-background increments `total_processed` by exactly 1 and adds
its processing time to `total_processing_time`; an unexpected
(non-HTTP-exception) failure increments `total_errors` by exactly 1
and leaves the other fields unchanged; an `HTTPException` leaves the
stats unchanged. -/
theorem stats_average_invariant :
    (∀ evs : List Ev, statsInv ((run initState evs).1.stats))
    ∧ (∀ (g : Globals) (st : Stats) (t : ℚ) (req : RBRequest),
        (remove_background_body g t req).isOk = true →
          (remove_background g st t req).1.totalProcessed = st.totalProcessed + 1
          ∧ (remove_background g st t req).1.totalProcessingTime =
              st.totalProcessingTime + t
          ∧ (remove_background g st t req).1.totalErrors = st.totalErrors
          ∧ (remove_background g st t req).1.averageProcessingTime =
              (st.totalProcessingTime + t) / ((st.totalProcessed : ℚ) + 1))
    ∧ (∀ (g : Globals) (st : Stats) (t : ℚ) (req : RBRequest) (m : String),
        remove_background_body g t req = .error (.err m) →
          (remove_background g st t req).1.totalErrors = st.totalErrors + 1
          ∧ (remove_background g st t req).1.totalProcessed = st.totalProcessed
          ∧ (remove_background g st t req).1.totalProcessingTime =
              st.totalProcessingTime
          ∧ (remove_background g st t req).1.averageProcessingTime =
              st.averageProcessingTime)
    ∧ (∀ (g : Globals) (st : Stats) (t : ℚ) (req : RBRequest) (e : HTTPExc),
        remove_background_body g t req = .error (.http e) →
          (remove_background g st t req).1 = st) := by
  refine ⟨fun evs => run_statsInv evs initState (fun hp => absurd rfl hp),
    fun g st t req h => ?_, fun g st t req m h => ?_, fun g st t req e h => ?_⟩
  · rcases hb : remove_background_body g t req with pe | rp
    · rw [hb] at h; cases h
    · simp [remove_background, hb, successStats]
  · simp [remove_background, h]
  · simp [remove_background, h]

/-- Witness for `stats_average_invariant` at concrete requests that
succeed, fail unexpectedly, and fail with an `HTTPException`. -/
theorem stats_average_invariant_witness :
    ((remove_background_body boundGlobals 1
        { image := sampleUpload, model := "u2net", output_format := "png" }).isOk = true
      ∧ (remove_background boundGlobals initStats 1
          { image := sampleUpload, model := "u2net", output_format := "png" }).1.totalProcessed = 1)
    ∧ (remove_background_body startedState.g initStats.totalProcessingTime
        { image := sampleUpload, model := "u2net", output_format := "png" } =
          .error (.err "name rembg_sessions is not defined")
      ∧ (remove_background startedState.g initStats 2
          { image := sampleUpload, model := "u2net", output_format := "png" }).1.totalErrors = 1)
    ∧ (remove_background_body boundGlobals 3
        { image := { sampleUpload with content_type := "text/plain" },
          model := "u2net", output_format := "png" } =
          .error (.http ⟨400, "File must be an image"⟩)
      ∧ (remove_background boundGlobals initStats 3
          { image := { sampleUpload with content_type := "text/plain" },
            model := "u2net", output_format := "png" }).1 = initStats) := by
  refine ⟨⟨rfl, (stats_average_invariant.2.1 boundGlobals initStats 1
      { image := sampleUpload, model := "u2net", output_format := "png" } rfl).1⟩,
    ⟨rfl, (stats_average_invariant.2.2.1 startedState.g initStats 2
      { image := sampleUpload, model := "u2net", output_format := "png" }
      "name rembg_sessions is not defined" rfl).1⟩,
    ⟨rfl, stats_average_invariant.2.2.2 boundGlobals initStats 3
      { image := { sampleUpload with content_type := "text/plain" },
        model := "u2net", output_format := "png" }
      ⟨400, "File must be an image"⟩ rfl⟩⟩

end AIService

namespace AIService

/-- C8 (amended): `/health` returns HTTP 503 whenever the model
session is not loaded (`None`) or the test inference on the small dummy
image throws, and otherwise returns a body with status "healthy" and
the hardcoded model name "u2net" — which coincides with the current
model name only while the loaded model is `u2net`. -/
theorem health_never_healthy_unloaded :
    (∀ (g : Globals) (ok : Bool), g.rembg_session = none →
        ∃ d, (health_check g ok).1 = .error ⟨503, d⟩)
    ∧ (∀ (g : Globals) (s : Session), g.rembg_session = some s →
        (health_check g false).1 =
          .error ⟨503, "Service unhealthy: inference failed"⟩)
    ∧ (∀ (g : Globals) (s : Session), g.rembg_session = some s →
        (health_check g true).1 = .ok ⟨"healthy", "u2net"⟩) := by
  refine ⟨fun g ok h => ?_, fun g s h => ?_, fun g s h => ?_⟩
  · refine ⟨"Service unhealthy: "
      ++ PyExc.message (.http ⟨503, "AI model not loaded"⟩), ?_⟩
    simp [health_check, h]
  · simp [health_check, h]
  · simp [health_check, h]

/-- Witness for `health_never_healthy_unloaded` at concrete module
states. -/
theorem health_never_healthy_unloaded_witness :
    (initGlobals.rembg_session = none
      ∧ ∃ d, (health_check initGlobals true).1 = .error ⟨503, d⟩)
    ∧ (startedState.g.rembg_session = some ⟨"u2net"⟩
      ∧ (health_check startedState.g false).1 =
          .error ⟨503, "Service unhealthy: inference failed"⟩
      ∧ (health_check startedState.g true).1 = .ok ⟨"healthy", "u2net"⟩) := by
  refine ⟨⟨rfl, health_never_healthy_unloaded.1 initGlobals true rfl⟩,
    ⟨rfl, health_never_healthy_unloaded.2.1 startedState.g ⟨"u2net"⟩ rfl,
     health_never_healthy_unloaded.2.2 startedState.g ⟨"u2net"⟩ rfl⟩⟩

/-- C8 counterexample: after startup followed by a successful switch
to `silueta`, the loaded session is the `silueta` one, yet `/health`
still answers with model name `u2net`, so the healthy body does not
carry the current model name as the claim states. -/
theorem health_reports_stale_model :
    gAfterSwitch.rembg_session = some ⟨"silueta"⟩
    ∧ (health_check gAfterSwitch true).1 = .ok ⟨"healthy", "u2net"⟩
    ∧ "u2net" ≠ "silueta" := by
  exact ⟨rfl, rfl, by decide⟩

theorem batchLoop_entries (g : Globals) (t : ℚ) (fmt : String) :
    ∀ (st : Stats) (images : List UploadFileModel),
      (batchLoop g t fmt st images).2 = images.map (batchEntry g t fmt) := by
  intro st images
  induction images generalizing st with
  | nil => rfl
  | cons im rest ih => simp [batchLoop, ih]

/-- C9: batch processing is bounded and failure-isolated: a batch of
more than 10 images is rejected with HTTP 400 before any image is
processed (the stats are untouched); for a batch of at most 10 images
the result list has exactly one entry per input image in input order,
each entry being a function of its own image alone; every entry carries
the filename of its image, and a failed image yields a success=false
entry with an error message without affecting the other entries. -/
theorem batch_bounded_and_isolated :
    (∀ (g : Globals) (st : Stats) (t : ℚ) (images : List UploadFileModel)
        (fmt : String), images.length > 10 →
        batch_remove_background g st t images fmt =
          (st, .error ⟨400, "Maximum 10 images allowed per batch"⟩))
    ∧ (∀ (g : Globals) (st : Stats) (t : ℚ) (images : List UploadFileModel)
        (fmt : String), images.length ≤ 10 →
        (batch_remove_background g st t images fmt).2 =
          .ok (images.map (batchEntry g t fmt)))
    ∧ (∀ (g : Globals) (t : ℚ) (fmt : String) (im : UploadFileModel),
        (batchEntry g t fmt im).filename = im.filename)
    ∧ (∀ (g : Globals) (t : ℚ) (fmt : String) (im : UploadFileModel),
        (batchEntry g t fmt im).success = false →
          ∃ msg, (batchEntry g t fmt im).error = some msg) := by
  refine ⟨fun g st t images fmt h => ?_, fun g st t images fmt h => ?_,
    fun g t fmt im => ?_, fun g t fmt im h => ?_⟩
  · simp [batch_remove_background, h]
  · have h2 : ¬ images.length > 10 := not_lt.mpr h
    simp [batch_remove_background, h2, batchLoop_entries]
  · rcases hb : remove_background_body g t
        { image := im, model := fmt, output_format := "png" } with pe | rp
    · rcases pe with e | m <;> simp [batchEntry, hb]
    · simp [batchEntry, hb]
  · rcases hb : remove_background_body g t
        { image := im, model := fmt, output_format := "png" } with pe | rp
    · rcases pe with e | m
      · refine ⟨(PyExc.http e).message, ?_⟩
        simp [batchEntry, hb]
      · refine ⟨(PyExc.http ⟨500, "Failed to process image: " ++ m⟩).message, ?_⟩
        simp [batchEntry, hb]
    · rw [show (batchEntry g t fmt im).success = true by simp [batchEntry, hb]] at h
      cases h

/-- Witness for `batch_bounded_and_isolated` at concrete batches of
11 and 1 images. -/
theorem batch_bounded_and_isolated_witness :
    ((List.replicate 11 sampleUpload).length > 10)
    ∧ batch_remove_background startedState.g initStats 1
        (List.replicate 11 sampleUpload) "png" =
        (initStats, .error ⟨400, "Maximum 10 images allowed per batch"⟩)
    ∧ ([sampleUpload].length ≤ 10)
    ∧ (batch_remove_background startedState.g initStats 1 [sampleUpload] "png").2 =
        .ok [batchEntry startedState.g 1 "png" sampleUpload]
    ∧ ((batchEntry startedState.g 1 "png" sampleUpload).success = false)
    ∧ (∃ msg, (batchEntry startedState.g 1 "png" sampleUpload).error = some msg) := by
  refine ⟨by decide,
    batch_bounded_and_isolated.1 startedState.g initStats 1 _ "png" (by decide),
    by decide, ?_, rfl,
    batch_bounded_and_isolated.2.2.2 startedState.g 1 "png" sampleUpload rfl⟩
  have h := batch_bounded_and_isolated.2.1 startedState.g initStats 1
    [sampleUpload] "png" (by decide)
  simpa using h

end AIService

namespace AIService

/-- C10: output-format handling of remove-background: when the
lower-cased `output_format` is "jpg" or "jpeg", the processed image is
alpha-composited onto an opaque white RGBA background and returned as
JPEG with media type image/jpeg; for every other `output_format` the
processed image itself is returned as PNG with media type image/png,
preserving its transparency; in both cases the response carries the
X-Processing-Time, X-Original-Size and X-Processed-Size headers and a
Content-Disposition filename starting with "processed_". -/
theorem output_format_handling :
    ∀ (g : Globals) (t : ℚ) (req : RBRequest) (resp : AIResponse) (img : Img),
      remove_background_body g t req = .ok (resp, img) →
        ((strToLower req.output_format = "jpg" ∨ strToLower req.output_format = "jpeg") →
            resp.media_type = "image/jpeg"
            ∧ resp.content =
                .jpeg (.converted (.composited
                  (.newLike "RGBA" img 255 255 255 255) img) "RGB") 95)
        ∧ (¬ (strToLower req.output_format = "jpg" ∨ strToLower req.output_format = "jpeg") →
            resp.media_type = "image/png" ∧ resp.content = .png img true)
        ∧ resp.headers =
            [("X-Processing-Time", fmtSeconds t),
             ("X-Original-Size", toString req.image.data.length),
             ("X-Processed-Size", toString resp.content.size),
             ("Content-Disposition",
              "attachment; filename=\"processed_" ++ req.image.filename ++ "\"")] := by
  intro g t req resp img hok
  rcases hgs : g.rembg_sessions with _ | sessions
  · simp only [remove_background_body, hgs] at hok
    cases hok
  · simp only [remove_background_body, hgs] at hok
    split_ifs at hok
    all_goals cases hok
    all_goals refine ⟨fun hf => ?_, fun hn => ?_, rfl⟩
    all_goals first
      | exact ⟨rfl, rfl⟩
      | exact absurd hf (by assumption)
      | exact absurd (by assumption) hn

/-- Witness for `output_format_handling` at a concrete request whose
`output_format` is "JPG". -/
theorem output_format_handling_witness :
    (remove_background_body boundGlobals 2
        { image := sampleUpload, model := "u2net", output_format := "JPG" } =
      .ok (sampleJpegResponse, sampleProcessed))
    ∧ (strToLower "JPG" = "jpg" ∨ strToLower "JPG" = "jpeg")
    ∧ sampleJpegResponse.media_type = "image/jpeg"
    ∧ sampleJpegResponse.content =
        .jpeg (.converted (.composited
          (.newLike "RGBA" sampleProcessed 255 255 255 255) sampleProcessed) "RGB") 95 := by
  have h : remove_background_body boundGlobals 2
      { image := sampleUpload, model := "u2net", output_format := "JPG" } =
      .ok (sampleJpegResponse, sampleProcessed) := rfl
  have hc := output_format_handling boundGlobals 2
    { image := sampleUpload, model := "u2net", output_format := "JPG" }
    sampleJpegResponse sampleProcessed h
  exact ⟨h, Or.inl rfl, (hc.1 (Or.inl rfl)).1, (hc.1 (Or.inl rfl)).2⟩

end AIService


namespace ModelledAI

open AIService

/-- C1: as stated, the claim is broken by the same slip as C2 — the
remove-background operation of the AI microservice exists and accepts
its parameters, but because the name `rembg_sessions` is unbound it
answers HTTP 500 for every request instead of processing the image.
This theorem settles the rest of the claim and evaluates that failing
mode: requests of the three spec-modelled modes (enhance, crop,
restoration/face-swap) that pass the validation of their mode are
dispatched to the processor of that mode, requests failing validation
are rejected with the validation error and not processed, for each of
these three modes there is a request with valid parameters that is
processed accordingly — and every request to the real remove-background
endpoint after startup is answered with the 500 NameError instead of a
processed image. -/
theorem four_mode_operations :
    (∀ (req : ModelledRequest) (res : ModeResult),
        validateAndDispatch req = .ok res → res.mode = req.mode)
    ∧ (∀ req : ModelledRequest, validateRequest req = none →
        ∃ res, validateAndDispatch req = .ok res ∧ res.mode = req.mode)
    ∧ (∀ (req : ModelledRequest) (e : HTTPExc), validateRequest req = some e →
        validateAndDispatch req = .error e)
    ∧ (∀ m : Mode, m ≠ .removeBackground →
        ∃ (req : ModelledRequest) (res : ModeResult),
          req.mode = m ∧ validateAndDispatch req = .ok res ∧ res.mode = m)
    ∧ (∀ (st : Stats) (t : ℚ) (req : RBRequest),
        (remove_background startedState.g st t req).2 =
          .error ⟨500, "Failed to process image: name rembg_sessions is not defined"⟩) := by
  refine ⟨fun req res h => ?_, fun req hv => ?_, fun req e hv => ?_,
    fun m hm => ?_, fun st t req => rfl⟩
  · rcases hv : validateRequest req with _ | e
    · unfold validateAndDispatch at h
      rw [hv] at h
      cases req <;> (cases h; rfl)
    · unfold validateAndDispatch at h
      rw [hv] at h
      cases h
  · cases req <;> simp [validateAndDispatch, hv] <;> rfl
  · simp [validateAndDispatch, hv]
  · cases m with
    | removeBackground => exact absurd rfl hm
    | enhance =>
        exact ⟨.enhance sampleUpload 1 1 1 1 false false,
          .enhanced (.converted
            (.decoded sampleUpload.data sampleUpload.decodedMode) "RGB"),
          rfl, rfl, rfl⟩
    | crop =>
        exact ⟨.crop sampleUpload 800 600 none none false,
          .cropped (.converted
            (.decoded sampleUpload.data sampleUpload.decodedMode) "RGB"),
          rfl, rfl, rfl⟩
    | restoration =>
        exact ⟨.restoration sampleUpload "face-swap" (some sampleUpload) none,
          .restored (.converted
            (.decoded sampleUpload.data sampleUpload.decodedMode) "RGB"),
          rfl, rfl, rfl⟩

/-- Witness for `four_mode_operations` at concrete requests. -/
theorem four_mode_operations_witness :
    (validateRequest (.enhance sampleUpload 1 1 1 1 false false) = none)
    ∧ (∃ res, validateAndDispatch (.enhance sampleUpload 1 1 1 1 false false) =
        .ok res
        ∧ res.mode = ModelledRequest.mode (.enhance sampleUpload 1 1 1 1 false false))
    ∧ (validateRequest (.restoration sampleUpload "face-swap" none none) =
        some ⟨400, "Please upload a face_image for face swap mode"⟩)
    ∧ validateAndDispatch (.restoration sampleUpload "face-swap" none none) =
        .error ⟨400, "Please upload a face_image for face swap mode"⟩
    ∧ (Mode.crop ≠ Mode.removeBackground)
    ∧ (∃ (req : ModelledRequest) (res : ModeResult),
        req.mode = Mode.crop ∧ validateAndDispatch req = .ok res
        ∧ res.mode = Mode.crop)
    ∧ (remove_background startedState.g initStats 1
        { image := sampleUpload, model := "u2net", output_format := "png" }).2 =
        .error ⟨500, "Failed to process image: name rembg_sessions is not defined"⟩ := by
  refine ⟨rfl, four_mode_operations.2.1 _ rfl, rfl,
    four_mode_operations.2.2.1 _ _ rfl, by decide,
    four_mode_operations.2.2.2.1 Mode.crop (by decide),
    four_mode_operations.2.2.2.2 initStats 1 _⟩

end ModelledAI
